import Mathlib

/-! Parse-Comm-Log: status decoding, poll classification and label tables.

A shallow embedding of `ParseCommLog.hpp`.  An `unsigned char` is a natural
number below 256; wherever the C++ narrows a promoted `int` back to
`unsigned char` the embedding reduces modulo 256.
-/

namespace ParseCommLog

/-! ## Enumerations -/

/-- Message position information (`enum Direction`). -/
inductive Direction where
  | UNKNOWN
  | RX
  | TX
  | COMMENT
  deriving DecidableEq, Repr

/-! ## class Status -/

/-- The decoded status byte (`class Status`), one field per data member. -/
structure Status where
  raw_status : Nat
  direction_rx : Bool
  comment_byte : Bool
  overrun_error : Bool
  parity_error : Bool
  framing_error : Bool
  break_error : Bool
  deriving DecidableEq, Repr

namespace Status

/-- Bit .0 flags an RX byte (`Status::RX`). -/
def RX : Nat := 0x01

/-- Bits .3.2.1 form a number (`Status::BITS_321_MASK`). -/
def BITS_321_MASK : Nat := 0x0E

/-- The comment sub-code, once the bits are shifted right (`Status::COMMENT`). -/
def COMMENT : Nat := 1

/-- Overrun bit of the QUART status register (`Status::OVERRUN`). -/
def OVERRUN : Nat := 0x10

/-- Parity bit of the QUART status register (`Status::PARITY`). -/
def PARITY : Nat := 0x20

/-- Framing bit of the QUART status register (`Status::FRAMING`). -/
def FRAMING : Nat := 0x40

/-- Break bit of the QUART status register (`Status::BREAK`). -/
def BREAK : Nat := 0x80

/-- The constructor `Status::Status(unsigned char status_byte)`. -/
def ofByte (status_byte : Nat) : Status :=
  let direction_rx : Bool := if status_byte &&& RX ≠ 0 then true else false
  let bits_321 : Nat := ((status_byte &&& BITS_321_MASK) >>> 1) % 256
  let comment_byte : Bool := decide (bits_321 = COMMENT)
  if direction_rx then
    { raw_status := status_byte
      direction_rx := direction_rx
      comment_byte := comment_byte
      overrun_error := if status_byte &&& OVERRUN ≠ 0 then true else false
      parity_error := if status_byte &&& PARITY ≠ 0 then true else false
      framing_error := if status_byte &&& FRAMING ≠ 0 then true else false
      break_error := if status_byte &&& BREAK ≠ 0 then true else false }
  else
    { raw_status := status_byte
      direction_rx := direction_rx
      comment_byte := comment_byte
      overrun_error := false
      parity_error := false
      framing_error := false
      break_error := false }

/-- The accessor `Status::rx`. -/
def rx (s : Status) : Bool := s.direction_rx

/-- The accessor `Status::addressByte`. -/
def addressByte (s : Status) : Bool := s.parity_error

/-- The accessor `Status::commentByte`. -/
def commentByte (s : Status) : Bool := s.comment_byte

end Status

/-! ## class StatusAndData -/

/-- A logged byte with its decoded status (`class StatusAndData`). -/
structure StatusAndData where
  status : Status
  data : Nat
  deriving DecidableEq, Repr

namespace StatusAndData

/-- The constructor `StatusAndData(unsigned char status, unsigned char data)`;
the `status` member is built by `Status::Status`. -/
def ofBytes (status data : Nat) : StatusAndData :=
  { status := Status.ofByte status, data := data }

/-- The method `StatusAndData::rx`. -/
def rx (sd : StatusAndData) : Bool := sd.status.rx && !sd.status.commentByte

/-- The method `StatusAndData::tx`. -/
def tx (sd : StatusAndData) : Bool := !(sd.status.rx || sd.status.commentByte)

/-- The method `StatusAndData::addressByte`. -/
def addressByte (sd : StatusAndData) : Bool := sd.status.addressByte

/-- The method `StatusAndData::commentByte`. -/
def commentByte (sd : StatusAndData) : Bool := sd.status.commentByte

/-- The method `StatusAndData::broadcastPoll`. -/
def broadcastPoll (sd : StatusAndData) : Bool := decide (sd.data = 0x80)

/-- The method `StatusAndData::generalPoll`. -/
def generalPoll (sd : StatusAndData) : Bool := decide (sd.data ≥ 0x81)

/-- The method `StatusAndData::longPoll`. -/
def longPoll (sd : StatusAndData) : Bool := decide (sd.data < 0x80)

end StatusAndData

/-- The global `unsigned char POLL_MASK`. -/
def POLL_MASK : Nat := 0x80

/-! ## Hexadecimal output of a byte

`operator<<(std::ostream&, StatusAndData&)` writes the data byte as
`std::uppercase << std::setfill('0') << std::setw(2) << std::hex << (int)data`.
-/

/-- The digits `std::hex` with `std::uppercase` writes for a non-negative `int`. -/
def hexUpper (n : Nat) : List Char := (Nat.toDigits 16 n).map Char.toUpper

/-- Left padding of `std::setw(w)` with `std::setfill(fill)`: text shorter than
the width is padded on the left, longer text is written whole. -/
def setw (w : Nat) (fill : Char) (cs : List Char) : List Char :=
  List.replicate (w - cs.length) fill ++ cs

/-- The text written for the data byte by the `StatusAndData` formatter. -/
def hexByte (data : Nat) : String := String.mk (setw 2 '0' (hexUpper data))

/-! ## Label tables -/

/-- Aggregate initialisation of a `std::array<std::string, n>`: the
initialisers fill the first elements in order and every remaining element is
value-initialised, an empty string. -/
def aggregateInit (n : Nat) (inits : List String) : List String :=
  inits.take n ++ List.replicate (n - inits.length) ""

/-- The initialiser list of `long_poll`, literal by literal.  The line of
`LP B5` ends without a comma, so the compiler joins that literal with the next
one, `"LP B6"`, into a single initialiser. -/
def long_poll_initializers : List String := [
  "LP 00 - ",
  "LP 01 - SHUTDOWN",
  "LP 02 - STARTUP",
  "LP 03 - SOUND OFF",
  "LP 04 - SOUND ON",
  "LP 05 - REEL SPIN OR GAME PLAY SOUNDS DISABLED",
  "LP 06 - ENABLE BILL ACCEPTOR",
  "LP 07 - DISABLE BILL ACCEPTOR",
  "LP 08 - CONFIGURE BILL DENOMINATIONS",
  "LP 09 - ENABLE/DISABLE GAME N",
  "LP 0A - ENTER MAINTENANCE MODE",
  "LP 0B - EXIT MAINTENANCE MODE",
  "LP 0C",
  "LP 0D",
  "LP 0E - ENABLE/DISABLE REAL TIME EVENT REPORTING",
  "LP 0F - SEND METERS 10-15",

  "LP 10 - SEND TOTAL CANCELLED CREDITS METER",
  "LP 11 - SEND TOTAL COIN IN METER",
  "LP 12 - SEND TOTAL COIN OUT METER",
  "LP 13 - SEND TOTAL DROP METER",
  "LP 14 - SEND TOTAL JACKPOT METER",
  "LP 15 - SEND GAMES PLAYED METER",
  "LP 16 - SEND GAMES WON METER",
  "LP 17 - SEND GAMES LOST METER",
  "LP 18 - SEND GAMES PLAYER SINCE LAST POWER UP",
  "LP 19 - SEND METERS 11 - 15",
  "LP 1A - SEND CURRENT CREDITS",
  "LP 1B - SEND HANDPAY INFORMATION",
  "LP 1C - SEND METERS",
  "LP 1D",
  "LP 1E - SEND TOTAL BILL METERS (# OF BILLS)",
  "LP 1F - SEND GAMING MACHINE ID & INFORMATION",

  "LP 20 - SEND TOTAL BILL METERS (VALUE OF BILLS)",
  "LP 21 - ROM SIGNATURE VERIFICATION",
  "LP 22",
  "LP 23",
  "LP 24",
  "LP 25",
  "LP 26",
  "LP 27",
  "LP 28",
  "LP 29",
  "LP 2A - SEND TRUE COIN IN",
  "LP 2B - SEND TRUE COIN OUT",
  "LP 2C - SEND CURRENT HOPPER LEVEL",
  "LP 2D - SEND TOTAL HAND PAID CANCELLED CREDITS",
  "LP 2E - DELAY GAME",
  "LP 2F - SEND SELECTED METERS FOR GAME N",

  "LP 30",
  "LP 31 - SEND $1 BILLS IN METER",
  "LP 32 - SEND $2 BILLS IN METER",
  "LP 33 - SEND $5 BILLS IN METER",
  "LP 34 - SEND $10 BILLS IN METER",
  "LP 35 - SEND $20 BILLS IN METER",
  "LP 36 - SEND $50 BILLS IN METER",
  "LP 37 - SEND $100 BILLS IN METER",
  "LP 38 - SEND $500 BILLS IN METER",
  "LP 39 - SEND $1,000 BILLS IN METER",
  "LP 3A - SEND $200 BILLS IN METER",
  "LP 3B - SEND $25 BILLS IN METER",
  "LP 3C - SEND $2,000 BILLS IN METER",
  "LP 3D - SEND CASH OUT TICKET INFORMATION",
  "LP 3E - SEND $2,500 BILLS IN METER",
  "LP 3F - SEND $5,000 BILLS IN METER",

  "LP 40 - SEND $10,000 BILLS IN METER",
  "LP 41 - SEND $20,000 BILLS IN METER",
  "LP 42 - SEND $25,000 BILLS IN METER",
  "LP 43 - SEND $50,000 BILLS IN METER",
  "LP 44 - SEND $100,000 BILLS IN METER",
  "LP 45 - SEND $250 BILLS IN METER",
  "LP 46 - SEND CREDIT AMOUNT OF ALL BILLS ACCEPTED",
  "LP 47 - SEND COIN AMOUNT ACCEPTED FROM AN EXTERNAL COIN ACCEPTOR",
  "LP 48 - SEND LAST BILL ACCEPTED INFORMATION",
  "LP 49 - SEND NUMBER OF BILLS CURRENTLY IN STACKER",
  "LP 4A - SEND TOTAL CREDIT AMOUNT OF ALL BILLS CURRENTLY IN STACKED",
  "LP 4B",
  "LP 4C - SET SECURE ENHANCED VALIDATION ID",
  "LP 4D - SEND ENHANCED VALIDATION INFORMATION",
  "LP 4E",
  "LP 4F - SEND CURRENT HOPPER STATUS",

  "LP 50 - SEND VALIDATION METERS",
  "LP 51 - SEND TOTAL NUMBER OF GAMES IMPLEMENTED",
  "LP 52 - SEND GAME N METERS",
  "LP 53 - SEND GAME N CONFIGURATION",
  "LP 54 - SEND SAS VERSION ID AND EGM SERIAL #",
  "LP 55 - SEND SELECTED GAME NUMBER",
  "LP 56 - SEND ENABLED GAME NUMBERS",
  "LP 57 - SEND PENDING CASHOUT INFORMATION",
  "LP 58 - RECEIVE VALIDATION NUMBER",
  "LP 59",
  "LP 5A",
  "LP 5B",
  "LP 5C",
  "LP 5D",
  "LP 5E",
  "LP 5F",

  "LP 60",
  "LP 61",
  "LP 62",
  "LP 63",
  "LP 64",
  "LP 65",
  "LP 66",
  "LP 67",
  "LP 68",
  "LP 69",
  "LP 6A",
  "LP 6B",
  "LP 6C",
  "LP 6D",
  "LP 6E - SEND AUTHENTICATION INFORMATION",
  "LP 6F - SEND EXTENDED METERS FOR GAME N",

  "LP 70 - SEND TICKET VALIDATION DATA",
  "LP 71 - REDEEM TICKET",
  "LP 72 - AFT TRANSFER FUNDS",
  "LP 73 - AFT REGISTER GAMING MACHINE",
  "LP 74 - ADT GAME LOCK AND STATUS REQUEST",
  "LP 75 - SET AFT RECEIPT DATA",
  "LP 76 - SET CUSTOM AFT TICKET DATA",
  "LP 77",
  "LP 78",
  "LP 79",
  "LP 7A",
  "LP 7B - EXTENDED VALIDATION STATUS",
  "LP 7C - SET EXTENDED TICKET DATA",
  "LP 7D - SET TICKET DATA",
  "LP 7E - SEND CURRENT DATE TIME",
  "LP 7F - SET CURRENT DATE TIME",

  "LP 80 - RECEIVE PROGRESSIVE INFORMATION",
  "LP 81",
  "LP 82",
  "LP 83 - SEND CUMULATIVE PROGRESSIVE WINS",
  "LP 84 - SEND PROGRESSIVE WIN AMOUNT",
  "LP 85 - SEND SAS PROGRESSIVE WIN AMOUNT",
  "LP 86 - RECEIVE MULTIPLE PROGRESSIVE LEVELS",
  "LP 87 - SEND MULTIPLE SAS PROGRESSIVE WIN AMOUNTS",
  "LP 88",
  "LP 89",
  "LP 8A - INITIATE A LEGACY BONUS PAY",
  "LP 8B - INITIATE MULTIPLIED JACKPOT MODE (OBSOLETE)",
  "LP 8C - ENTER/EXIT TOURNAMENT MODE",
  "LP 8D",
  "LP 8E - SEND CARD INFORMATION",
  "LP 8F - SEND PHYSICAL REEL STOP INFORMATION",

  "LP 90 - SEND LEGACY BONUS WIN AMOUNT",
  "LP 91",
  "LP 92",
  "LP 93",
  "LP 94 - REMOTE HANDPAY RESET",
  "LP 95 - SEND TOURNAMENT GAMES PLAYED",
  "LP 96 - SEND TOURNAMENT GAMES WON",
  "LP 97 - SEND TOURNAMENT GAMES WAGERED",
  "LP 98 - SEND TOURNAMENT CREDITS WAGERED",
  "LP 99 - SEND METERS 95-98",
  "LP 9A - SEND LEGACY BONUS METERS",
  "LP 9B",
  "LP 9C",
  "LP 9D",
  "LP 9E",
  "LP 9F",

  "LP A0 - SEND ENABLED FEATURES",
  "LP A1",
  "LP A2",
  "LP A3",
  "LP A4 - SEND CASH OUT LIMIT",
  "LP A5",
  "LP A6",
  "LP A7",
  "LP A8 - ENABLED JACPOT HANDPAY RESET METHOD",
  "LP A9",
  "LP AA - ENABLE/DISABLE AUTO REBET",
  "LP AB",
  "LP AC",
  "LP AD",
  "LP AE",
  "LP AF",

  "LP B0 - MULTI-DENOM PREAMBLE",
  "LP B1 - SEND CURRENT PLAYER DENOMINATION",
  "LP B2 - SEND ENABLED PLAYER DENOMINATIONS",
  "LP B3 - SEND TOKEN DENOMINATION",
  "LP B4 - SEND WAGER CATEGORY INFORMATION",
  "LP B5 - SEND EXTENDED GAME N INFORMATION" ++ "LP B6",
  "LP B7",
  "LP B8",
  "LP B9",
  "LP BA",
  "LP BB",
  "LP BC",
  "LP BD",
  "LP BE",
  "LP BF",
  "LP C0",

  "LP C1",
  "LP C2",
  "LP C3",
  "LP C4",
  "LP C5",
  "LP C6",
  "LP C7",
  "LP C8",
  "LP C9",
  "LP CA",
  "LP CB",
  "LP CC",
  "LP CD",
  "LP CE",
  "LP CF",
  "LP D0",

  "LP D1",
  "LP D2",
  "LP D3",
  "LP D4",
  "LP D5",
  "LP D6",
  "LP D7",
  "LP D8",
  "LP D9",
  "LP DA",
  "LP DB",
  "LP DC",
  "LP DD",
  "LP DE",
  "LP DF",
  "LP E0",

  "LP E1",
  "LP E2",
  "LP E3",
  "LP E4",
  "LP E5",
  "LP E6",
  "LP E7",
  "LP E8",
  "LP E9",
  "LP EA",
  "LP EB",
  "LP EC",
  "LP ED",
  "LP EE",
  "LP EF",
  "LP F0",

  "LP F1",
  "LP F2",
  "LP F3",
  "LP F4",
  "LP F5",
  "LP F6",
  "LP F7",
  "LP F8",
  "LP F9",
  "LP FA",
  "LP FB",
  "LP FC",
  "LP FD",
  "LP FE",
  "LP FF - EVENT RESPONSE TO LONG POLL"
]

/-- The table `std::array <std::string, 0x100> long_poll`. -/
def long_poll : List String := aggregateInit 0x100 long_poll_initializers

/-- The initialiser list of `long_poll_response`, literal by literal. -/
def long_poll_response_initializers : List String := [
  "LP 00 - ",
  "LP 01 - ",
  "LP 02 - ",
  "LP 03 - ",
  "LP 04 - ",
  "LP 05 - ",
  "LP 06 - ",
  "LP 07 - ",
  "LP 08 - ",
  "LP 09 - ",
  "LP 0A - ",
  "LP 0B - ",
  "LP 0C - ",
  "LP 0D - ",
  "LP 0E - ",
  "LP 0F - ",

  "LP 10 - ",
  "LP 11 - ",
  "LP 12 - ",
  "LP 13 - ",
  "LP 14 - ",
  "LP 15 - ",
  "LP 16 - ",
  "LP 17 - ",
  "LP 18 - ",
  "LP 19 - ",
  "LP 1A - ",
  "LP 1B - ",
  "LP 1C - ",
  "LP 1D - ",
  "LP 1E - ",
  "LP 1F - ",

  "LP 20 - ",
  "LP 21 - ",
  "LP 22 - ",
  "LP 23 - ",
  "LP 24 - ",
  "LP 25 - ",
  "LP 26 - ",
  "LP 27 - ",
  "LP 28 - ",
  "LP 29 - ",
  "LP 2A - ",
  "LP 2B - ",
  "LP 2C - ",
  "LP 2D - ",
  "LP 2E - ",
  "LP 2F - ",

  "LP 30 - ",
  "LP 31 - ",
  "LP 32 - ",
  "LP 33 - ",
  "LP 34 - ",
  "LP 35 - ",
  "LP 36 - ",
  "LP 37 - ",
  "LP 38 - ",
  "LP 39 - ",
  "LP 3A - ",
  "LP 3B - ",
  "LP 3C - ",
  "LP 3D - ",
  "LP 3E - ",
  "LP 3F - ",

  "LP 40 - ",
  "LP 41 - ",
  "LP 42 - ",
  "LP 43 - ",
  "LP 44 - ",
  "LP 45 - ",
  "LP 46 - ",
  "LP 47 - ",
  "LP 48 - ",
  "LP 49 - ",
  "LP 4A - ",
  "LP 4B - ",
  "LP 4C - ",
  "LP 4D - ",
  "LP 4E - ",
  "LP 4F - ",

  "LP 50 - ",
  "LP 51 - ",
  "LP 52 - ",
  "LP 53 - ",
  "LP 54 - ",
  "LP 55 - ",
  "LP 56 - ",
  "LP 57 - ",
  "LP 58 - ",
  "LP 59 - ",
  "LP 5A - ",
  "LP 5B - ",
  "LP 5C - ",
  "LP 5D - ",
  "LP 5E - ",
  "LP 5F - ",

  "LP 60 - ",
  "LP 61 - ",
  "LP 62 - ",
  "LP 63 - ",
  "LP 64 - ",
  "LP 65 - ",
  "LP 66 - ",
  "LP 67 - ",
  "LP 68 - ",
  "LP 69 - ",
  "LP 6A - ",
  "LP 6B - ",
  "LP 6C - ",
  "LP 6D - ",
  "LP 6E - ",
  "LP 6F - ",

  "LP 70 - ",
  "LP 71 - ",
  "LP 72 - ",
  "LP 73 - ",
  "LP 74 - ",
  "LP 75 - ",
  "LP 76 - ",
  "LP 77 - ",
  "LP 78 - ",
  "LP 79 - ",
  "LP 7A - ",
  "LP 7B - ",
  "LP 7C - ",
  "LP 7D - ",
  "LP 7E - ",
  "LP 7F - ",

  "LP 80 - ",
  "LP 81 - ",
  "LP 82 - ",
  "LP 83 - ",
  "LP 84 - ",
  "LP 85 - ",
  "LP 86 - ",
  "LP 87 - ",
  "LP 88 - ",
  "LP 89 - ",
  "LP 8A - ",
  "LP 8B - ",
  "LP 8C - ",
  "LP 8D - ",
  "LP 8E - ",
  "LP 8F - ",

  "LP 90 - ",
  "LP 91 - ",
  "LP 92 - ",
  "LP 93 - ",
  "LP 94 - ",
  "LP 95 - ",
  "LP 96 - ",
  "LP 97 - ",
  "LP 98 - ",
  "LP 99 - ",
  "LP 9A - ",
  "LP 9B - ",
  "LP 9C - ",
  "LP 9D - ",
  "LP 9E - ",
  "LP 9F - ",

  "LP A0 - ",
  "LP A1 - ",
  "LP A2 - ",
  "LP A3 - ",
  "LP A4 - ",
  "LP A5 - ",
  "LP A6 - ",
  "LP A7 - ",
  "LP A8 - ",
  "LP A9 - ",
  "LP AA - ",
  "LP AB - ",
  "LP AC - ",
  "LP AD - ",
  "LP AE - ",
  "LP AF - ",

  "LP B0 - ",
  "LP B1 - ",
  "LP B2 - ",
  "LP B3 - ",
  "LP B4 - ",
  "LP B5 - ",
  "LP B6 - ",
  "LP B7 - ",
  "LP B8 - ",
  "LP B9 - ",
  "LP BA - ",
  "LP BB - ",
  "LP BC - ",
  "LP BD - ",
  "LP BE - ",
  "LP BF - ",

  "LP C0 - ",
  "LP C1 - ",
  "LP C2 - ",
  "LP C3 - ",
  "LP C4 - ",
  "LP C5 - ",
  "LP C6 - ",
  "LP C7 - ",
  "LP C8 - ",
  "LP C9 - ",
  "LP CA - ",
  "LP CB - ",
  "LP CC - ",
  "LP CD - ",
  "LP CE - ",
  "LP CF - ",

  "LP D0 - ",
  "LP D1 - ",
  "LP D2 - ",
  "LP D3 - ",
  "LP D4 - ",
  "LP D5 - ",
  "LP D6 - ",
  "LP D7 - ",
  "LP D8 - ",
  "LP D9 - ",
  "LP DA - ",
  "LP DB - ",
  "LP DC - ",
  "LP DD - ",
  "LP DE - ",
  "LP DF - ",

  "LP E0 - ",
  "LP E1 - ",
  "LP E2 - ",
  "LP E3 - ",
  "LP E4 - ",
  "LP E5 - ",
  "LP E6 - ",
  "LP E7 - ",
  "LP E8 - ",
  "LP E9 - ",
  "LP EA - ",
  "LP EB - ",
  "LP EC - ",
  "LP ED - ",
  "LP EE - ",
  "LP EF - ",

  "LP F0 - ",
  "LP F1 - ",
  "LP F2 - ",
  "LP F3 - ",
  "LP F4 - ",
  "LP F5 - ",
  "LP F6 - ",
  "LP F7 - ",
  "LP F8 - ",
  "LP F9 - ",
  "LP FA - ",
  "LP FB - ",
  "LP FC - ",
  "LP FD - ",
  "LP FE - ",
  "LP FF - "
]

/-- The table `std::array <std::string, 0x100> long_poll_response`. -/
def long_poll_response : List String := aggregateInit 0x100 long_poll_response_initializers

/-- Element access `table[i]` for an index inside the array. -/
def tableAt (table : List String) (i : Nat) : String := table.getD i ""

/-- A label begins with the given text. -/
def beginsWith (label pre : String) : Prop := pre.data <+: label.data

instance (label pre : String) : Decidable (beginsWith label pre) := by
  unfold beginsWith; infer_instance

/-! ## class Message -/

/-- A message pulled from the stream of bytes (`class Message`). -/
structure Message where
  direction : Direction := Direction.UNKNOWN
  start_of_message_detected : Bool := false
  description : String := ""
  raw_status_and_data_bytes : List StatusAndData := []
  deriving DecidableEq, Repr

/-- The method `Message::startNew`. -/
def Message.startNew (m : Message) (_direction : Direction)
    (_start_of_message_detected : Bool) : Message :=
  { m with
    direction := _direction
    start_of_message_detected := _start_of_message_detected
    raw_status_and_data_bytes := [] }

/-- The method `Message::getDirection`. -/
def Message.getDirection (m : Message) : Direction := m.direction

/-! ## Output formatting

The stream insertion operators of `Status`, `StatusAndData` and `Message`,
as functions from the output written so far to the output after the
insertion.  The default build is modelled: neither `__RAW_FORMAT__` nor
`__INCLUDE__` is defined.
-/

/-- Modelled from the spec: the colour manipulators `green`, `red` and `white`
of `ConsoleColor.h`, a header that is not among the sources.  They write no
character; each is kept in the output as a colour marker. -/
inductive Colour where
  | green
  | red
  | white
  deriving DecidableEq, Repr

/-- One insertion into the output stream: a character or a colour marker. -/
inductive Out where
  | chr (c : Char)
  | colour (k : Colour)
  deriving DecidableEq, Repr

/-- Insertion of a string, `o << "..."`: its characters in order. -/
def putString (o : List Out) (text : String) : List Out := o ++ text.data.map Out.chr

/-- The characters written to the stream, colour markers left out. -/
def textOf (o : List Out) : List Char :=
  o.filterMap fun x => match x with
    | Out.chr c => some c
    | Out.colour _ => none

/-- The colour markers sent to the stream, characters left out. -/
def coloursOf (o : List Out) : List Colour :=
  o.filterMap fun x => match x with
    | Out.chr _ => none
    | Out.colour k => some k

/-- The formatter `operator<<(std::ostream&, Status&)`. -/
def Status.format (o : List Out) (status : Status) : List Out :=
  let o := if status.parity_error then o ++ [Out.colour Colour.green] else o
  let o := if status.break_error then o ++ [Out.colour Colour.red] else o
  let o := if status.framing_error then o ++ [Out.colour Colour.red] else o
  let o := if status.overrun_error then o ++ [Out.colour Colour.red] else o
  o

/-- The formatter `operator<<(std::ostream&, StatusAndData&)`: the status,
then the data byte as two uppercase hexadecimal digits. -/
def StatusAndData.format (o : List Out) (status_and_data : StatusAndData) : List Out :=
  putString (Status.format o status_and_data.status) (hexByte status_and_data.data)

/-- The `switch` of the `Message` formatter: the direction tag written, and
the value of the local `ascii`. -/
def Message.directionTag (direction : Direction) : String × Bool :=
  match direction with
  | Direction.RX => ("RX: ", false)
  | Direction.TX => ("TX: ", false)
  | Direction.COMMENT => ("//", true)
  | _ => ("Direction UNKNOWN: ", false)

/-- The body of the loop of the `Message` formatter, for one stored byte. -/
def Message.formatByte (ascii : Bool) (o : List Out) (iter : StatusAndData) : List Out :=
  if ascii then
    o ++ [Out.chr (Char.ofNat iter.data)]
  else
    StatusAndData.format (o ++ [Out.chr ' ']) iter ++ [Out.colour Colour.white]

/-- The formatter `operator<<(std::ostream&, Message&)`. -/
def Message.format (o : List Out) (message : Message) : List Out :=
  let tag := Message.directionTag message.direction
  let o := putString o tag.1
  let o := putString o message.description
  message.raw_status_and_data_bytes.foldl (Message.formatByte tag.2) o

/-- The value of a hexadecimal digit written in upper case. -/
def hexDigitValue (c : Char) : Option Nat :=
  if '0' ≤ c ∧ c ≤ '9' then some (c.toNat - '0'.toNat)
  else if 'A' ≤ c ∧ c ≤ 'F' then some (c.toNat - 'A'.toNat + 10)
  else none

/-- The base-16 value of a text of upper-case hexadecimal digits. -/
def hexValue (cs : List Char) : Option Nat :=
  cs.foldl (fun acc c => acc.bind fun a => (hexDigitValue c).map fun v => 16 * a + v) (some 0)

/-! ## Segmentation

`ParseCommLog.hpp` declares the state of the segmenter, the globals
`current_message` and `messages`, but the function that cuts the stream of
bytes into messages is not among the sources.  It is modelled from the
transition rule of the specification, over the `Message` of the source.
-/

/-- Modelled from the spec: one logged unit, a status byte and a data byte
(the RawRecord of the data model); the log reader that produces it is not
among the sources. -/
structure RawRecord where
  status : Nat
  data : Nat
  deriving DecidableEq, Repr

/-- Modelled from the spec: the state of the segmenter, whose code is not among
the sources: the open message, if any (`none` is the state AwaitingBoundary),
and the sealed messages in order. -/
structure Segmenter where
  current_message : Option Message
  messages : List Message
  deriving DecidableEq, Repr

/-- Modelled from the spec: appending a record to the open message, at the end
of its bytes (insertion order is arrival order); the source has no method for
it. -/
def Message.append (m : Message) (r : StatusAndData) : Message :=
  { m with raw_status_and_data_bytes := m.raw_status_and_data_bytes ++ [r] }

/-- Modelled from the spec: opening a new message of the given kind, absent
from the sources; its first byte is the record that caused the boundary, so
that every byte is assigned to exactly one message. -/
def Segmenter.openNew (kind : Direction) (boundary_confirmed : Bool)
    (r : StatusAndData) : Message :=
  (Message.startNew {} kind boundary_confirmed).append r

/-- Modelled from the spec: sealing the currently open message, if any, absent
from the sources: it is appended to the transcript. -/
def Segmenter.seal (s : Segmenter) : List Message :=
  match s.current_message with
  | none => s.messages
  | some m => s.messages ++ [m]

/-- Modelled from the spec: the transition rule of the segmenter for one
incoming record, absent from the sources.  Rule 1: a comment record goes to the
open COMMENT message, or seals the open message and opens a COMMENT message.
Rule 2: when the direction differs from the kind of the open message, or no
message is open, or the record carries the address/command marker while the
open message is TX/RX and has at least one byte, the open message is sealed
and a message of the record's direction is opened; its boundary is confirmed
unless it was opened only because no message was open.  Rule 3: otherwise the
record is appended to the open message.  The spec does not say what the
boundary flag of a COMMENT message is; it is taken as false. -/
def Segmenter.step (s : Segmenter) (raw : RawRecord) : Segmenter :=
  let r := StatusAndData.ofBytes raw.status raw.data
  let kind := if r.status.rx then Direction.RX else Direction.TX
  if r.status.commentByte then
    match s.current_message with
    | some m =>
      if m.direction = Direction.COMMENT then
        { s with current_message := some (m.append r) }
      else
        { current_message := some (Segmenter.openNew Direction.COMMENT false r)
          messages := s.seal }
    | none =>
      { current_message := some (Segmenter.openNew Direction.COMMENT false r)
        messages := s.seal }
  else
    match s.current_message with
    | none =>
      { current_message := some (Segmenter.openNew kind false r)
        messages := s.seal }
    | some m =>
      if m.direction ≠ kind ∨
          (r.status.addressByte = true ∧
            (m.direction = Direction.TX ∨ m.direction = Direction.RX) ∧
            m.raw_status_and_data_bytes ≠ []) then
        { current_message := some (Segmenter.openNew kind true r)
          messages := s.seal }
      else
        { s with current_message := some (m.append r) }

/-- Modelled from the spec: the entry point `segment`, absent from the sources:
the records are consumed in order from the state AwaitingBoundary with an empty
transcript, and the end of the input seals whatever message is open. -/
def segment (records : List RawRecord) : List Message :=
  (records.foldl Segmenter.step { current_message := none, messages := [] }).seal

/-- The bytes of a list of messages, message after message. -/
def bytesOf (ms : List Message) : List StatusAndData :=
  (ms.map Message.raw_status_and_data_bytes).flatten

/-- The status byte and data byte a stored byte was built from. -/
def StatusAndData.raw (b : StatusAndData) : RawRecord :=
  { status := b.status.raw_status, data := b.data }

/-! ## Output formatting: inserting after earlier output -/

/-- The `Status` formatter appends to the output written so far. -/
theorem statusFormat_append (o : List Out) (st : Status) :
    Status.format o st = o ++ Status.format [] st := by
  unfold Status.format
  cases st.parity_error <;> cases st.break_error <;> cases st.framing_error <;>
    cases st.overrun_error <;> simp

/-- The `Status` formatter writes no character. -/
theorem Status.textOf_format (st : Status) : textOf (Status.format [] st) = [] := by
  unfold Status.format
  cases st.parity_error <;> cases st.break_error <;> cases st.framing_error <;>
    cases st.overrun_error <;> simp [textOf]

/-- The characters of an inserted string are the string. -/
theorem textOf_putString (t : String) : textOf (putString [] t) = t.data := by
  unfold putString textOf
  simp only [List.nil_append]
  induction t.data with
  | nil => rfl
  | cons c cs ih => simp [List.filterMap_cons, ih]

/-- An inserted string carries no colour marker. -/
theorem coloursOf_putString (t : String) : coloursOf (putString [] t) = [] := by
  unfold putString coloursOf
  simp only [List.nil_append]
  induction t.data with
  | nil => rfl
  | cons c cs ih => simp [List.filterMap_cons, ih]

/-- The `StatusAndData` formatter appends to the output written so far. -/
theorem statusAndDataFormat_append (o : List Out) (sd : StatusAndData) :
    StatusAndData.format o sd = o ++ StatusAndData.format [] sd := by
  unfold StatusAndData.format putString
  rw [statusFormat_append o sd.status, List.append_assoc]

/-- One pass of the loop of the `Message` formatter appends to the output. -/
theorem Message.formatByte_append (ascii : Bool) (o : List Out) (b : StatusAndData) :
    Message.formatByte ascii o b = o ++ Message.formatByte ascii [] b := by
  unfold Message.formatByte
  cases ascii
  · simp only [Bool.false_eq_true, if_false, List.nil_append]
    rw [statusAndDataFormat_append (o ++ [Out.chr ' ']) b,
      statusAndDataFormat_append [Out.chr ' '] b]
    simp [List.append_assoc]
  · simp

/-- The loop of the `Message` formatter writes the bytes one after the other. -/
theorem Message.foldl_formatByte (ascii : Bool) (bytes : List StatusAndData) (o : List Out) :
    bytes.foldl (Message.formatByte ascii) o =
      o ++ (bytes.map (Message.formatByte ascii [])).flatten := by
  induction bytes generalizing o with
  | nil => simp
  | cons b bs ih =>
    rw [List.foldl_cons, ih, Message.formatByte_append ascii o b]
    simp [List.append_assoc]

/-- Reading back the two digits written for a byte gives the byte. -/
theorem hexValue_hexByte (d : Nat) (hd : d < 256) : hexValue (hexByte d).data = some d := by
  interval_cases d <;> decide

/-- The two digits written for a byte, read off the digit string. -/
theorem hexByte_digits (d : Nat) (hd : d < 256) :
    (hexByte d).data =
      ["0123456789ABCDEF".data.getD (d / 16) '0',
       "0123456789ABCDEF".data.getD (d % 16) '0'] := by
  interval_cases d <;> decide

/-- The characters of a run of inserted characters are those characters. -/
theorem textOf_map_chr (cs : List Char) : textOf (cs.map Out.chr) = cs := by
  unfold textOf
  induction cs with
  | nil => rfl
  | cons c cs ih => simp [List.filterMap_cons, ih]

/-- The characters of two outputs in a row. -/
theorem textOf_append (a b : List Out) : textOf (a ++ b) = textOf a ++ textOf b := by
  simp [textOf, List.filterMap_append]

/-- The characters of the items written for a list of bytes, item by item. -/
theorem textOf_flatten_map (f : StatusAndData → List Out) (g : StatusAndData → List Char)
    (bs : List StatusAndData) (h : ∀ b ∈ bs, textOf (f b) = g b) :
    textOf (bs.map f).flatten = (bs.map g).flatten := by
  induction bs with
  | nil => rfl
  | cons b bs ih =>
    rw [List.map_cons, List.flatten_cons, textOf_append, List.map_cons, List.flatten_cons,
      h b (List.mem_cons_self b bs), ih (fun x hx => h x (List.mem_cons_of_mem b hx))]

/-- The item written for a byte of a COMMENT message: the byte as a character. -/
theorem formatByte_ascii (b : StatusAndData) :
    Message.formatByte true [] b = [Out.chr (Char.ofNat b.data)] := by
  simp [Message.formatByte]

/-- The item written for a byte of any other message: a space, the colour
markers of its status, its two hex digits, and the marker white. -/
theorem formatByte_hex (b : StatusAndData) (hb : b.data < 256) :
    Message.formatByte false [] b =
      [Out.chr ' '] ++
      (if b.status.parity_error then [Out.colour Colour.green] else []) ++
      (if b.status.break_error then [Out.colour Colour.red] else []) ++
      (if b.status.framing_error then [Out.colour Colour.red] else []) ++
      (if b.status.overrun_error then [Out.colour Colour.red] else []) ++
      [Out.chr ("0123456789ABCDEF".data.getD (b.data / 16) '0'),
       Out.chr ("0123456789ABCDEF".data.getD (b.data % 16) '0'),
       Out.colour Colour.white] := by
  unfold Message.formatByte StatusAndData.format putString Status.format
  rw [hexByte_digits b.data hb]
  cases b.status.parity_error <;> cases b.status.break_error <;>
    cases b.status.framing_error <;> cases b.status.overrun_error <;> simp

/-! ## Status decoding -/

/-- The comment flag of a status byte is decided by bits 1, 2 and 3 alone. -/
theorem commentByte_eq_bits (s : Nat) (hs : s < 256) :
    (Status.ofByte s).commentByte = (s.testBit 1 && !s.testBit 2 && !s.testBit 3) := by
  interval_cases s <;> decide

/-- The poll tests of a record read its data byte only. -/
theorem poll_ofBytes (s d : Nat) :
    (StatusAndData.ofBytes s d).broadcastPoll = decide (d = 0x80) ∧
    (StatusAndData.ofBytes s d).generalPoll = decide (d ≥ 0x81) ∧
    (StatusAndData.ofBytes s d).longPoll = decide (d < 0x80) :=
  ⟨rfl, rfl, rfl⟩

/-- C1: for every status byte whose bit 0 is clear (TX), the decoded status has
overrun, parity, framing and break errors all false, whatever bits 4..7 are. -/
theorem tx_error_masking (s : Nat) (hs : s < 256) (htx : s.testBit 0 = false) :
    (Status.ofByte s).overrun_error = false ∧
    (Status.ofByte s).parity_error = false ∧
    (Status.ofByte s).framing_error = false ∧
    (Status.ofByte s).break_error = false := by
  revert htx
  interval_cases s <;> decide

/-- Witness for C1 at the TX status byte 0xF0, whose four error bits are all set. -/
theorem tx_error_masking_witness :
    (0xF0 < 256 ∧ Nat.testBit 0xF0 0 = false) ∧
    (Status.ofByte 0xF0).overrun_error = false ∧
    (Status.ofByte 0xF0).parity_error = false ∧
    (Status.ofByte 0xF0).framing_error = false ∧
    (Status.ofByte 0xF0).break_error = false :=
  ⟨by decide, tx_error_masking 0xF0 (by decide) (by decide)⟩

/-- C2: for every status byte whose bit 0 is set (RX), the overrun, parity,
framing and break flags are bits 4, 5, 6 and 7 of the byte respectively. -/
theorem rx_error_bits (s : Nat) (hs : s < 256) (hrx : s.testBit 0 = true) :
    (Status.ofByte s).overrun_error = s.testBit 4 ∧
    (Status.ofByte s).parity_error = s.testBit 5 ∧
    (Status.ofByte s).framing_error = s.testBit 6 ∧
    (Status.ofByte s).break_error = s.testBit 7 := by
  revert hrx
  interval_cases s <;> decide

/-- Witness for C2 at the RX status byte 0x51 (overrun and framing set). -/
theorem rx_error_bits_witness :
    (0x51 < 256 ∧ Nat.testBit 0x51 0 = true) ∧
    (Status.ofByte 0x51).overrun_error = Nat.testBit 0x51 4 ∧
    (Status.ofByte 0x51).parity_error = Nat.testBit 0x51 5 ∧
    (Status.ofByte 0x51).framing_error = Nat.testBit 0x51 6 ∧
    (Status.ofByte 0x51).break_error = Nat.testBit 0x51 7 :=
  ⟨by decide, rx_error_bits 0x51 (by decide) (by decide)⟩

/-- C3: for each of the 256 status bytes the decoder returns a status, and its
direction is RX exactly when bit 0 is 1 and TX exactly when bit 0 is 0. -/
theorem direction_is_bit0 (s : Nat) (hs : s < 256) :
    (∃ st : Status, Status.ofByte s = st ∧ st.raw_status = s) ∧
    ((Status.ofByte s).rx = true ↔ s.testBit 0 = true) ∧
    ((Status.ofByte s).rx = false ↔ s.testBit 0 = false) := by
  interval_cases s <;> exact ⟨⟨_, rfl, rfl⟩, by decide, by decide⟩

/-- Witness for C3 at the status byte 0xFF. -/
theorem direction_is_bit0_witness :
    0xFF < 256 ∧
    (∃ st : Status, Status.ofByte 0xFF = st ∧ st.raw_status = 0xFF) ∧
    ((Status.ofByte 0xFF).rx = true ↔ Nat.testBit 0xFF 0 = true) ∧
    ((Status.ofByte 0xFF).rx = false ↔ Nat.testBit 0xFF 0 = false) :=
  ⟨by decide, direction_is_bit0 0xFF (by decide)⟩

/-- C4: the comment flag is true iff the 3-bit number in bits 3..1,
`(s & 0x0E) >> 1`, equals 1; sub-codes 0 and 2..7 give false; and two status
bytes that agree on bits 1, 2 and 3 have the same comment flag, whatever their
bit 0 and bits 4..7. -/
theorem comment_byte_subcode (s : Nat) (hs : s < 256) :
    ((s &&& 0x0E) >>> 1 = (s / 2) % 8) ∧
    ((Status.ofByte s).commentByte = true ↔ (s &&& 0x0E) >>> 1 = 1) ∧
    ((s &&& 0x0E) >>> 1 ∈ [0, 2, 3, 4, 5, 6, 7] → (Status.ofByte s).commentByte = false) ∧
    (∀ t : Nat, t < 256 → t.testBit 1 = s.testBit 1 → t.testBit 2 = s.testBit 2 →
      t.testBit 3 = s.testBit 3 →
      (Status.ofByte t).commentByte = (Status.ofByte s).commentByte) := by
  refine ⟨?_, ?_, ?_, ?_⟩
  · interval_cases s <;> decide
  · interval_cases s <;> decide
  · interval_cases s <;> decide
  · intro t ht h1 h2 h3
    rw [commentByte_eq_bits t ht, commentByte_eq_bits s hs, h1, h2, h3]

/-- Witness for C4 at the status byte 0xF3 (sub-code 1, every other bit set). -/
theorem comment_byte_subcode_witness :
    0xF3 < 256 ∧ (Status.ofByte 0xF3).commentByte = true ∧ (0xF3 &&& 0x0E) >>> 1 = 1 :=
  ⟨by decide, ((comment_byte_subcode 0xF3 (by decide)).2.1).2 (by decide), by decide⟩

/-- C5, as stated, fails: the TX status byte 0x20 has the parity bit (mask 0x20)
set, yet neither `Status::addressByte` nor `StatusAndData::addressByte` is true. -/
theorem address_byte_not_parity_bit :
    0x20 < 256 ∧ Nat.testBit 0x20 5 = true ∧ 0x20 &&& Status.PARITY ≠ 0 ∧
    ¬ ((Status.ofByte 0x20).addressByte = true ↔ Nat.testBit 0x20 5 = true) ∧
    ¬ ((StatusAndData.ofBytes 0x20 0x2A).addressByte = true ↔ Nat.testBit 0x20 5 = true) := by
  decide

/-- C5, amended: the address/command marker of a status byte (for
`Status::addressByte`, and for `StatusAndData::addressByte` with any data byte)
is true iff the byte is RX (bit 0 set) and its parity-error bit (bit 5) is set. -/
theorem address_byte_iff_rx_parity (s d : Nat) (hs : s < 256) :
    ((Status.ofByte s).addressByte = true ↔ (s.testBit 0 = true ∧ s.testBit 5 = true)) ∧
    ((StatusAndData.ofBytes s d).addressByte = true ↔
      (s.testBit 0 = true ∧ s.testBit 5 = true)) := by
  have h : (Status.ofByte s).addressByte = true ↔ (s.testBit 0 = true ∧ s.testBit 5 = true) := by
    interval_cases s <;> decide
  exact ⟨h, h⟩

/-- Witness for the amended C5 at the RX status byte 0x21 and data byte 0x80. -/
theorem address_byte_iff_rx_parity_witness :
    0x21 < 256 ∧ (Status.ofByte 0x21).addressByte = true ∧
    (StatusAndData.ofBytes 0x21 0x80).addressByte = true :=
  ⟨by decide, (address_byte_iff_rx_parity 0x21 0x80 (by decide)).1.2 (by decide),
    (address_byte_iff_rx_parity 0x21 0x80 (by decide)).2.2 (by decide)⟩

/-! ## Poll classification -/

/-- C6: for every data byte exactly one of broadcast poll, general poll and long
poll holds, whatever the status byte: broadcast iff `d = 0x80`, general iff
`0x81 ≤ d ≤ 0xFF`, long iff `d < 0x80`; 0x80, 0x95 and 0x2A are a broadcast, a
general and a long poll. -/
theorem poll_trichotomy (s d : Nat) (hd : d < 256) :
    ((StatusAndData.ofBytes s d).broadcastPoll = true ↔ d = 0x80) ∧
    ((StatusAndData.ofBytes s d).generalPoll = true ↔ (0x81 ≤ d ∧ d ≤ 0xFF)) ∧
    ((StatusAndData.ofBytes s d).longPoll = true ↔ d < 0x80) ∧
    (((StatusAndData.ofBytes s d).broadcastPoll = true ∧
        (StatusAndData.ofBytes s d).generalPoll = false ∧
        (StatusAndData.ofBytes s d).longPoll = false) ∨
      ((StatusAndData.ofBytes s d).broadcastPoll = false ∧
        (StatusAndData.ofBytes s d).generalPoll = true ∧
        (StatusAndData.ofBytes s d).longPoll = false) ∨
      ((StatusAndData.ofBytes s d).broadcastPoll = false ∧
        (StatusAndData.ofBytes s d).generalPoll = false ∧
        (StatusAndData.ofBytes s d).longPoll = true)) ∧
    (StatusAndData.ofBytes s 0x80).broadcastPoll = true ∧
    (StatusAndData.ofBytes s 0x95).generalPoll = true ∧
    (StatusAndData.ofBytes s 0x2A).longPoll = true := by
  obtain ⟨hb, hg, hl⟩ := poll_ofBytes s d
  rw [hb, hg, hl]
  refine ⟨by simp, by simp; omega, by simp, ?_, rfl, rfl, rfl⟩
  simp only [decide_eq_true_eq, decide_eq_false_iff_not]
  omega

/-- Witness for C6 at status byte 0x21 and data byte 0x95. -/
theorem poll_trichotomy_witness :
    0x95 < 256 ∧ (StatusAndData.ofBytes 0x21 0x95).generalPoll = true ∧
    (StatusAndData.ofBytes 0x21 0x95).broadcastPoll = false ∧
    (StatusAndData.ofBytes 0x21 0x95).longPoll = false :=
  ⟨by decide, ((poll_trichotomy 0x21 0x95 (by decide)).2.1).2 (by decide), by decide, by decide⟩

/-- C7: the general-poll test `d >= 0x81` holds iff `d & 0x80` is non-zero and
`d` is not 0x80; the long-poll test `d < 0x80` holds iff `d & POLL_MASK` is 0,
with `POLL_MASK = 0x80`; and for a general-poll byte the address `d & 0x7F`
lies in 1..0x7F with `d = 0x80 + (d & 0x7F)` (0x95 has address 0x15). -/
theorem poll_mask_arithmetic (s d : Nat) (hd : d < 256) :
    POLL_MASK = 0x80 ∧
    ((StatusAndData.ofBytes s d).generalPoll = true ↔ (d &&& 0x80 ≠ 0 ∧ d ≠ 0x80)) ∧
    ((StatusAndData.ofBytes s d).longPoll = true ↔ d &&& POLL_MASK = 0) ∧
    ((StatusAndData.ofBytes s d).generalPoll = true →
      1 ≤ d &&& 0x7F ∧ d &&& 0x7F ≤ 0x7F ∧ d = 0x80 + (d &&& 0x7F)) ∧
    0x95 &&& 0x7F = 0x15 := by
  obtain ⟨-, hg, hl⟩ := poll_ofBytes s d
  rw [hg, hl]
  refine ⟨rfl, ?_, ?_, ?_, by decide⟩
  · interval_cases d <;> decide
  · interval_cases d <;> decide
  · interval_cases d <;> decide

/-- Witness for C7 at status byte 0x21 and the general-poll byte 0x95. -/
theorem poll_mask_arithmetic_witness :
    0x95 < 256 ∧ 1 ≤ 0x95 &&& 0x7F ∧ 0x95 &&& 0x7F ≤ 0x7F ∧ 0x95 = 0x80 + (0x95 &&& 0x7F) :=
  ⟨by decide, ((poll_mask_arithmetic 0x21 0x95 (by decide)).2.2.2.1) (by decide)⟩

/-! ## The long-poll label table -/

set_option maxRecDepth 100000 in
/-- C8: the table has 256 entries, but from index 0xB6 on they are not the
labels of their own index: the initialiser of 0xB5 swallows the literal
`"LP B6"`, entry 0xB6 is `"LP B7"`, entry 0xFE is the label of 0xFF and entry
0xFF is empty. -/
theorem long_poll_shifted_after_B5 :
    long_poll.length = 0x100 ∧
    long_poll_initializers.length = 0xFF ∧
    tableAt long_poll 0xB5 = "LP B5 - SEND EXTENDED GAME N INFORMATIONLP B6" ∧
    tableAt long_poll 0xB6 = "LP B7" ∧
    ¬ beginsWith (tableAt long_poll 0xB6) ("LP " ++ hexByte 0xB6) ∧
    tableAt long_poll 0xFE = "LP FF - EVENT RESPONSE TO LONG POLL" ∧
    ¬ beginsWith (tableAt long_poll 0xFE) ("LP " ++ hexByte 0xFE) ∧
    tableAt long_poll 0xFF = "" ∧
    ¬ beginsWith (tableAt long_poll 0xFF) ("LP " ++ hexByte 0xFF) := by
  refine ⟨by rfl, by rfl, ?_, ?_, ?_, ?_, ?_, ?_, ?_⟩ <;> decide

set_option maxRecDepth 100000 in
/-- C9: for every long-poll command code (a data byte with `longPoll`, that is
below 0x80) the description `long_poll[d]` is non-empty and begins with "LP "
followed by the two uppercase hex digits of `d`; for 0x2A it is exactly
"LP 2A - SEND TRUE COIN IN". -/
theorem long_poll_description (s d : Nat)
    (hlp : (StatusAndData.ofBytes s d).longPoll = true) :
    tableAt long_poll d ≠ "" ∧
    (hexByte d).length = 2 ∧
    beginsWith (tableAt long_poll d) ("LP " ++ hexByte d) ∧
    tableAt long_poll 0x2A = "LP 2A - SEND TRUE COIN IN" := by
  have hd : d < 0x80 := by
    rw [(poll_ofBytes s d).2.2] at hlp
    exact of_decide_eq_true hlp
  clear hlp
  interval_cases d <;> decide

/-- Witness for C9 at the long-poll command 0x2A sent with status byte 0x20. -/
theorem long_poll_description_witness :
    (StatusAndData.ofBytes 0x20 0x2A).longPoll = true ∧
    tableAt long_poll 0x2A ≠ "" ∧
    beginsWith (tableAt long_poll 0x2A) ("LP " ++ hexByte 0x2A) :=
  ⟨by decide, (long_poll_description 0x20 0x2A (by decide)).1,
    (long_poll_description 0x20 0x2A (by decide)).2.2.1⟩

/-! ## Starting a new message -/

/-- C10: `startNew` leaves the description as it was, so a message that held
the label "LP 2A - SEND TRUE COIN IN" still holds it after `startNew` instead
of the empty string; only a message whose description was already empty, such
as a freshly constructed one, has an empty description afterwards. -/
theorem startNew_keeps_description :
    (Message.startNew
        { direction := Direction.TX
          start_of_message_detected := true
          description := "LP 2A - SEND TRUE COIN IN"
          raw_status_and_data_bytes := [StatusAndData.ofBytes 0x20 0x2A] }
        Direction.RX true).description = "LP 2A - SEND TRUE COIN IN" ∧
    (Message.startNew
        { direction := Direction.TX
          start_of_message_detected := true
          description := "LP 2A - SEND TRUE COIN IN"
          raw_status_and_data_bytes := [StatusAndData.ofBytes 0x20 0x2A] }
        Direction.RX true).description ≠ "" ∧
    (Message.startNew {} Direction.RX true).description = "" := by
  refine ⟨rfl, ?_, rfl⟩
  decide

/-! ## Starting a new message, continued -/

/-- C12: whatever the message held, `startNew(dir, f)` leaves it with direction
`dir`, start-of-message flag `f` and no bytes, and a second `startNew(dir, f)`
changes nothing more. -/
theorem startNew_resets (m : Message) (dir : Direction) (f : Bool) :
    (m.startNew dir f).direction = dir ∧
    (m.startNew dir f).getDirection = dir ∧
    (m.startNew dir f).start_of_message_detected = f ∧
    (m.startNew dir f).raw_status_and_data_bytes = [] ∧
    (m.startNew dir f).startNew dir f = m.startNew dir f :=
  ⟨rfl, rfl, rfl, rfl, rfl⟩

/-! ## Record kinds -/

/-- C18: for every status byte and data byte exactly one of `rx()`, `tx()` and
`commentByte()` holds: comment iff bits 3..1 equal 1, rx iff not a comment and
bit 0 set, tx iff not a comment and bit 0 clear; the data byte plays no part. -/
theorem record_kind_trichotomy (s d : Nat) (hs : s < 256) :
    ((StatusAndData.ofBytes s d).commentByte = true ↔ (s / 2) % 8 = 1) ∧
    ((StatusAndData.ofBytes s d).rx = true ↔
      ((StatusAndData.ofBytes s d).commentByte = false ∧ s.testBit 0 = true)) ∧
    ((StatusAndData.ofBytes s d).tx = true ↔
      ((StatusAndData.ofBytes s d).commentByte = false ∧ s.testBit 0 = false)) ∧
    (((StatusAndData.ofBytes s d).rx = true ∧ (StatusAndData.ofBytes s d).tx = false ∧
        (StatusAndData.ofBytes s d).commentByte = false) ∨
      ((StatusAndData.ofBytes s d).rx = false ∧ (StatusAndData.ofBytes s d).tx = true ∧
        (StatusAndData.ofBytes s d).commentByte = false) ∨
      ((StatusAndData.ofBytes s d).rx = false ∧ (StatusAndData.ofBytes s d).tx = false ∧
        (StatusAndData.ofBytes s d).commentByte = true)) ∧
    (∀ e : Nat, (StatusAndData.ofBytes s e).rx = (StatusAndData.ofBytes s d).rx ∧
      (StatusAndData.ofBytes s e).tx = (StatusAndData.ofBytes s d).tx ∧
      (StatusAndData.ofBytes s e).commentByte = (StatusAndData.ofBytes s d).commentByte) := by
  have key : ((StatusAndData.ofBytes s 0).commentByte = true ↔ (s / 2) % 8 = 1) ∧
      ((StatusAndData.ofBytes s 0).rx = true ↔
        ((StatusAndData.ofBytes s 0).commentByte = false ∧ s.testBit 0 = true)) ∧
      ((StatusAndData.ofBytes s 0).tx = true ↔
        ((StatusAndData.ofBytes s 0).commentByte = false ∧ s.testBit 0 = false)) ∧
      (((StatusAndData.ofBytes s 0).rx = true ∧ (StatusAndData.ofBytes s 0).tx = false ∧
          (StatusAndData.ofBytes s 0).commentByte = false) ∨
        ((StatusAndData.ofBytes s 0).rx = false ∧ (StatusAndData.ofBytes s 0).tx = true ∧
          (StatusAndData.ofBytes s 0).commentByte = false) ∨
        ((StatusAndData.ofBytes s 0).rx = false ∧ (StatusAndData.ofBytes s 0).tx = false ∧
          (StatusAndData.ofBytes s 0).commentByte = true)) := by
    interval_cases s <;> decide
  exact ⟨key.1, key.2.1, key.2.2.1, key.2.2.2, fun _ => ⟨rfl, rfl, rfl⟩⟩

/-- Witness for C18 at the comment record with status byte 0x03 and data 0x41. -/
theorem record_kind_trichotomy_witness :
    0x03 < 256 ∧ (StatusAndData.ofBytes 0x03 0x41).commentByte = true ∧
    (StatusAndData.ofBytes 0x03 0x41).rx = false ∧
    (StatusAndData.ofBytes 0x03 0x41).tx = false :=
  ⟨by decide, (record_kind_trichotomy 0x03 0x41 (by decide)).1.2 (by decide),
    by decide, by decide⟩

/-- C19: a record whose `addressByte()` is true has bit 0 of its status set, so
it was received; no record is both `tx()` and `addressByte()`, and a status
byte with bit 0 clear is never an address byte whatever its bit 5. -/
theorem address_byte_only_rx (s d : Nat) (hs : s < 256) :
    ((StatusAndData.ofBytes s d).addressByte = true → s.testBit 0 = true) ∧
    ¬ ((StatusAndData.ofBytes s d).tx = true ∧
      (StatusAndData.ofBytes s d).addressByte = true) ∧
    (s.testBit 0 = false → (StatusAndData.ofBytes s d).addressByte = false) := by
  have key : ((StatusAndData.ofBytes s 0).addressByte = true → s.testBit 0 = true) ∧
      ¬ ((StatusAndData.ofBytes s 0).tx = true ∧
        (StatusAndData.ofBytes s 0).addressByte = true) ∧
      (s.testBit 0 = false → (StatusAndData.ofBytes s 0).addressByte = false) := by
    interval_cases s <;> decide
  exact key

/-- Witness for C19 at the TX status byte 0x20, whose bit 5 is set. -/
theorem address_byte_only_rx_witness :
    0x20 < 256 ∧ Nat.testBit 0x20 5 = true ∧
    (StatusAndData.ofBytes 0x20 0x2A).addressByte = false :=
  ⟨by decide, by decide, (address_byte_only_rx 0x20 0x2A (by decide)).2.2 (by decide)⟩

/-! ## Rendering -/

/-- C13: a COMMENT message is rendered as "//", then its description, then
its data bytes as raw characters in arrival order, one character per byte: no
hex digits, no spaces between them, no colour marker; two COMMENT messages with
the same description and data bytes render alike whatever their status bytes. -/
theorem comment_message_raw (m : Message) (hc : m.direction = Direction.COMMENT) :
    Message.format [] m =
      putString [] "//" ++ putString [] m.description ++
        m.raw_status_and_data_bytes.map (fun b => Out.chr (Char.ofNat b.data)) ∧
    textOf (Message.format [] m) =
      "//".data ++ m.description.data ++
        m.raw_status_and_data_bytes.map (fun b => Char.ofNat b.data) ∧
    coloursOf (Message.format [] m) = [] ∧
    (∀ n : Message, n.direction = Direction.COMMENT → n.description = m.description →
      n.raw_status_and_data_bytes.map StatusAndData.data =
        m.raw_status_and_data_bytes.map StatusAndData.data →
      Message.format [] n = Message.format [] m) := by
  have closed : ∀ k : Message, k.direction = Direction.COMMENT →
      Message.format [] k =
        putString [] "//" ++ putString [] k.description ++
          (k.raw_status_and_data_bytes.map StatusAndData.data).map
            (fun d => Out.chr (Char.ofNat d)) := by
    intro k hk
    unfold Message.format
    simp only [hk, Message.directionTag]
    rw [Message.foldl_formatByte]
    have h1 : putString (putString [] "//") k.description =
        putString [] "//" ++ putString [] k.description := by
      simp [putString]
    have h2 : (k.raw_status_and_data_bytes.map (Message.formatByte true [])).flatten =
        (k.raw_status_and_data_bytes.map StatusAndData.data).map
          (fun d => Out.chr (Char.ofNat d)) := by
      induction k.raw_status_and_data_bytes with
      | nil => rfl
      | cons b bs ih =>
        rw [List.map_cons, List.flatten_cons, ih]
        simp [Message.formatByte]
    rw [h1, h2]
  have hm := closed m hc
  rw [List.map_map] at hm
  refine ⟨hm, ?_, ?_, ?_⟩
  · rw [hm]
    simp only [textOf, List.filterMap_append]
    rw [← textOf, ← textOf, textOf_putString, textOf_putString]
    congr 1
    induction m.raw_status_and_data_bytes with
    | nil => rfl
    | cons b bs ih => simp [List.filterMap_cons, ih]
  · rw [hm]
    simp only [coloursOf, List.filterMap_append]
    rw [← coloursOf, ← coloursOf, coloursOf_putString, coloursOf_putString]
    induction m.raw_status_and_data_bytes with
    | nil => rfl
    | cons b bs ih => simp [List.filterMap_cons, ih]
  · intro n hn hd hb
    rw [closed n hn, closed m hc, hd, hb]

/-- Witness for C13 at a COMMENT message with description "x" and the two
bytes 'H', 'i' logged with different status bytes. -/
theorem comment_message_raw_witness :
    textOf (Message.format [] (Message.mk Direction.COMMENT false "x"
      [StatusAndData.ofBytes 0x03 0x48, StatusAndData.ofBytes 0xF2 0x69])) = "//xHi".data :=
  (comment_message_raw (Message.mk Direction.COMMENT false "x"
    [StatusAndData.ofBytes 0x03 0x48, StatusAndData.ofBytes 0xF2 0x69]) rfl).2.1

/-- C14: every message whose stored data values are bytes (below 256) is
rendered as the tag of its direction ("RX: ", "TX: ", "//" or "Direction UNKNOWN: "), then its
description, then one item per stored byte in arrival order: the byte as a raw
character in a COMMENT message, otherwise a space, the colour markers of its
status, its two uppercase hex digits and the marker white.  The text is the
tag, the description and one character (COMMENT) or three characters per
byte, so a message of n bytes shows exactly n items. -/
theorem message_format_layout (m : Message)
    (hb : ∀ b ∈ m.raw_status_and_data_bytes, b.data < 256) :
    Message.format [] m =
      (match m.direction with
        | Direction.RX => "RX: "
        | Direction.TX => "TX: "
        | Direction.COMMENT => "//"
        | Direction.UNKNOWN => "Direction UNKNOWN: ").data.map Out.chr ++
      m.description.data.map Out.chr ++
      (m.raw_status_and_data_bytes.map fun b =>
        if m.direction = Direction.COMMENT then [Out.chr (Char.ofNat b.data)]
        else
          [Out.chr ' '] ++
          (if b.status.parity_error then [Out.colour Colour.green] else []) ++
          (if b.status.break_error then [Out.colour Colour.red] else []) ++
          (if b.status.framing_error then [Out.colour Colour.red] else []) ++
          (if b.status.overrun_error then [Out.colour Colour.red] else []) ++
          [Out.chr ("0123456789ABCDEF".data.getD (b.data / 16) '0'),
           Out.chr ("0123456789ABCDEF".data.getD (b.data % 16) '0'),
           Out.colour Colour.white]).flatten ∧
    textOf (Message.format [] m) =
      (match m.direction with
        | Direction.RX => "RX: "
        | Direction.TX => "TX: "
        | Direction.COMMENT => "//"
        | Direction.UNKNOWN => "Direction UNKNOWN: ").data ++
      m.description.data ++
      (m.raw_status_and_data_bytes.map fun b =>
        if m.direction = Direction.COMMENT then [Char.ofNat b.data]
        else
          [' ', "0123456789ABCDEF".data.getD (b.data / 16) '0',
           "0123456789ABCDEF".data.getD (b.data % 16) '0']).flatten ∧
    (textOf (Message.format [] m)).length =
      (match m.direction with
        | Direction.RX => "RX: "
        | Direction.TX => "TX: "
        | Direction.COMMENT => "//"
        | Direction.UNKNOWN => "Direction UNKNOWN: ").data.length +
      m.description.data.length +
      (if m.direction = Direction.COMMENT then 1 else 3) *
        m.raw_status_and_data_bytes.length := by
  rcases m with ⟨dir, f, desc, bs⟩
  simp only at hb
  simp only []
  have htag : putString (putString [] (Message.directionTag dir).1) desc =
      (match dir with
        | Direction.RX => "RX: "
        | Direction.TX => "TX: "
        | Direction.COMMENT => "//"
        | Direction.UNKNOWN => "Direction UNKNOWN: ").data.map Out.chr ++
      desc.data.map Out.chr := by
    cases dir <;> simp [Message.directionTag, putString]
  have hitems : bs.map (Message.formatByte (Message.directionTag dir).2 []) =
      bs.map fun b =>
        if dir = Direction.COMMENT then [Out.chr (Char.ofNat b.data)]
        else
          [Out.chr ' '] ++
          (if b.status.parity_error then [Out.colour Colour.green] else []) ++
          (if b.status.break_error then [Out.colour Colour.red] else []) ++
          (if b.status.framing_error then [Out.colour Colour.red] else []) ++
          (if b.status.overrun_error then [Out.colour Colour.red] else []) ++
          [Out.chr ("0123456789ABCDEF".data.getD (b.data / 16) '0'),
           Out.chr ("0123456789ABCDEF".data.getD (b.data % 16) '0'),
           Out.colour Colour.white] := by
    apply List.map_congr_left
    intro b hmem
    cases dir
    · rw [if_neg (by decide)]; exact formatByte_hex b (hb b hmem)
    · rw [if_neg (by decide)]; exact formatByte_hex b (hb b hmem)
    · rw [if_neg (by decide)]; exact formatByte_hex b (hb b hmem)
    · rw [if_pos rfl]; exact formatByte_ascii b
  refine (fun hfull => (fun htext => ⟨hfull, htext, ?len⟩) ?text) ?full
  case full =>
    unfold Message.format
    simp only []
    rw [Message.foldl_formatByte, htag, hitems]
  case text =>
    rw [hfull, textOf_append, textOf_append, textOf_map_chr, textOf_map_chr]
    rw [textOf_flatten_map _
      (fun b => if dir = Direction.COMMENT then [Char.ofNat b.data]
        else
          [' ', "0123456789ABCDEF".data.getD (b.data / 16) '0',
           "0123456789ABCDEF".data.getD (b.data % 16) '0']) bs]
    intro b _
    by_cases hc : dir = Direction.COMMENT
    · simp [hc, textOf]
    · simp only [hc, if_false]
      cases b.status.parity_error <;> cases b.status.break_error <;>
        cases b.status.framing_error <;> cases b.status.overrun_error <;> simp [textOf]
  case len =>
    rw [htext, List.length_append, List.length_append]
    congr 1
    clear hfull htext hitems hb
    by_cases hc : dir = Direction.COMMENT
    · simp only [hc, if_true]
      induction bs with
      | nil => rfl
      | cons b bs ih =>
        simp only [List.map_cons, List.flatten_cons, List.length_append, List.length_cons,
          List.length_nil] at ih ⊢
        rw [ih]
        omega
    · simp only [hc, if_false]
      induction bs with
      | nil => rfl
      | cons b bs ih =>
        simp only [List.map_cons, List.flatten_cons, List.length_append, List.length_cons,
          List.length_nil] at ih ⊢
        rw [ih]
        omega

/-- Witness for C14 at an RX message of three bytes with the description
"LP 2A - ": its text is the tag, the description and three hex items. -/
theorem message_format_layout_witness :
    textOf (Message.format [] (Message.mk Direction.RX true "LP 2A - "
      [StatusAndData.ofBytes 0x21 0x01, StatusAndData.ofBytes 0x01 0x2A,
        StatusAndData.ofBytes 0x41 0xFF])) = "RX: LP 2A -  01 2A FF".data ∧
    coloursOf (Message.format [] (Message.mk Direction.RX true "LP 2A - "
      [StatusAndData.ofBytes 0x21 0x01, StatusAndData.ofBytes 0x01 0x2A,
        StatusAndData.ofBytes 0x41 0xFF])) =
      [Colour.green, Colour.white, Colour.white, Colour.red, Colour.white] :=
  ⟨(message_format_layout (Message.mk Direction.RX true "LP 2A - "
      [StatusAndData.ofBytes 0x21 0x01, StatusAndData.ofBytes 0x01 0x2A,
        StatusAndData.ofBytes 0x41 0xFF]) (by decide)).2.1, by decide⟩

/-- C15: the text written for a data byte by the `StatusAndData` formatter is
exactly two characters from 0-9 and A-F whose base-16 value is the byte, so
reading the digits back gives the byte and distinct bytes give distinct text;
in a non-comment message it follows one space. -/
theorem data_byte_hex (s d : Nat) (hd : d < 256) :
    textOf (StatusAndData.format [] (StatusAndData.ofBytes s d)) = (hexByte d).data ∧
    textOf (Message.formatByte false [] (StatusAndData.ofBytes s d)) =
      ' ' :: (hexByte d).data ∧
    (hexByte d).length = 2 ∧
    (∀ c ∈ (hexByte d).data, c ∈ "0123456789ABCDEF".data) ∧
    hexValue (hexByte d).data = some d ∧
    (∀ e : Nat, e < 256 → hexByte e = hexByte d → e = d) := by
  have htext : textOf (StatusAndData.format [] (StatusAndData.ofBytes s d)) =
      (hexByte d).data := by
    unfold StatusAndData.format putString
    simp only [textOf, List.filterMap_append]
    rw [← textOf, ← textOf, Status.textOf_format, List.nil_append]
    exact textOf_putString (hexByte d)
  refine ⟨htext, ?_, ?_, ?_, hexValue_hexByte d hd, ?_⟩
  · unfold Message.formatByte
    simp only [Bool.false_eq_true, if_false, List.nil_append]
    rw [statusAndDataFormat_append]
    simp only [textOf, List.filterMap_append]
    rw [← textOf, ← textOf, ← textOf, htext]
    simp [textOf]
  · interval_cases d <;> decide
  · interval_cases d <;> decide
  · intro e he heq
    have h1 := hexValue_hexByte e he
    rw [heq, hexValue_hexByte d hd] at h1
    exact (Option.some.inj h1).symm

/-- Witness for C15 at the data byte 0x0A logged with the RX status 0x21. -/
theorem data_byte_hex_witness :
    0x0A < 256 ∧
    textOf (StatusAndData.format [] (StatusAndData.ofBytes 0x21 0x0A)) = "0A".data ∧
    hexValue "0A".data = some 0x0A :=
  ⟨by decide, (data_byte_hex 0x21 0x0A (by decide)).1, by decide⟩

/-- C16: the colour markers the `Status` formatter emits for a status byte are
none iff no error flag of the decoded status is set; green is among them iff
the parity error is set, red iff overrun, framing or break error is set; the
formatter writes no character, and a TX status byte gets no marker at all. -/
theorem status_colours (s : Nat) (hs : s < 256) :
    (Status.format [] (Status.ofByte s) = [] ↔
      ((Status.ofByte s).overrun_error = false ∧ (Status.ofByte s).parity_error = false ∧
        (Status.ofByte s).framing_error = false ∧ (Status.ofByte s).break_error = false)) ∧
    (Out.colour Colour.green ∈ Status.format [] (Status.ofByte s) ↔
      (Status.ofByte s).parity_error = true) ∧
    (Out.colour Colour.red ∈ Status.format [] (Status.ofByte s) ↔
      ((Status.ofByte s).overrun_error = true ∨ (Status.ofByte s).framing_error = true ∨
        (Status.ofByte s).break_error = true)) ∧
    textOf (Status.format [] (Status.ofByte s)) = [] ∧
    (s.testBit 0 = false → Status.format [] (Status.ofByte s) = []) := by
  interval_cases s <;> decide

/-- Witness for C16 at the TX status byte 0xF0, whose four error bits are set. -/
theorem status_colours_witness :
    0xF0 < 256 ∧ Nat.testBit 0xF0 0 = false ∧
    Status.format [] (Status.ofByte 0xF0) = [] :=
  ⟨by decide, by decide, (status_colours 0xF0 (by decide)).2.2.2.2 (by decide)⟩

/-! ## The long-poll response table -/

set_option maxRecDepth 100000 in
/-- C17: the response table has 256 entries, and the entry of every index is
"LP ", the two uppercase hex digits of the index, and " - ". -/
theorem long_poll_response_labels (i : Nat) (hi : i < 256) :
    long_poll_response.length = 0x100 ∧
    long_poll_response_initializers.length = 0x100 ∧
    long_poll_response[i]? = some ("LP " ++ hexByte i ++ " - ") ∧
    tableAt long_poll_response i = "LP " ++ hexByte i ++ " - " := by
  refine ⟨by rfl, by rfl, ?_, ?_⟩
  · interval_cases i <;> decide
  · interval_cases i <;> decide

/-- Witness for C17 at index 0xB6. -/
theorem long_poll_response_labels_witness :
    0xB6 < 256 ∧ tableAt long_poll_response 0xB6 = "LP B6 - " :=
  ⟨by decide, (long_poll_response_labels 0xB6 (by decide)).2.2.2⟩

/-! ## Segmentation coverage -/

/-- A stored byte remembers the status byte and data byte it was built from. -/
theorem StatusAndData.raw_ofBytes (raw : RawRecord) :
    (StatusAndData.ofBytes raw.status raw.data).raw = raw := by
  unfold StatusAndData.raw StatusAndData.ofBytes Status.ofByte
  cases raw with
  | mk st d => by_cases h : st &&& Status.RX ≠ 0 <;> simp [h]

/-- One step of the segmenter either seals the open message and opens a new one
holding the record, or appends the record to the open message. -/
theorem Segmenter.step_cases (s : Segmenter) (raw : RawRecord) :
    (∃ kind f, s.step raw =
      { current_message :=
          some (Segmenter.openNew kind f (StatusAndData.ofBytes raw.status raw.data))
        messages := s.seal }) ∨
    (∃ m, s.current_message = some m ∧ s.step raw =
      { current_message := some (m.append (StatusAndData.ofBytes raw.status raw.data))
        messages := s.messages }) := by
  rcases s with ⟨cur, ms⟩
  unfold Segmenter.step
  dsimp only
  generalize (if (StatusAndData.ofBytes raw.status raw.data).status.rx = true
    then Direction.RX else Direction.TX) = kind
  by_cases hc : (StatusAndData.ofBytes raw.status raw.data).status.commentByte = true
  · rw [if_pos hc]
    cases cur with
    | none => exact Or.inl ⟨_, _, rfl⟩
    | some m =>
      dsimp only
      by_cases hd : m.direction = Direction.COMMENT
      · rw [if_pos hd]; exact Or.inr ⟨m, rfl, rfl⟩
      · rw [if_neg hd]; exact Or.inl ⟨_, _, rfl⟩
  · rw [if_neg hc]
    cases cur with
    | none => exact Or.inl ⟨_, _, rfl⟩
    | some m =>
      dsimp only
      by_cases hb : m.direction ≠ kind ∨
          ((StatusAndData.ofBytes raw.status raw.data).status.addressByte = true ∧
            (m.direction = Direction.TX ∨ m.direction = Direction.RX) ∧
            m.raw_status_and_data_bytes ≠ [])
      · rw [if_pos hb]; exact Or.inl ⟨_, _, rfl⟩
      · rw [if_neg hb]; exact Or.inr ⟨m, rfl, rfl⟩

/-- Sealing after one more record adds exactly that record to the bytes. -/
theorem Segmenter.bytesOf_seal_step (s : Segmenter) (raw : RawRecord) :
    bytesOf (s.step raw).seal =
      bytesOf s.seal ++ [StatusAndData.ofBytes raw.status raw.data] := by
  rcases Segmenter.step_cases s raw with ⟨kind, f, h⟩ | ⟨m, hm, h⟩
  · rw [h]
    simp [bytesOf, Segmenter.seal, Segmenter.openNew, Message.append, Message.startNew]
  · rw [h]
    rcases s with ⟨cur, ms⟩
    simp only at hm
    subst hm
    simp [bytesOf, Segmenter.seal, Message.append]

/-- Sealing after a run of records adds exactly those records, in order. -/
theorem Segmenter.bytesOf_seal_foldl (records : List RawRecord) (s : Segmenter) :
    bytesOf (records.foldl Segmenter.step s).seal =
      bytesOf s.seal ++ records.map (fun raw => StatusAndData.ofBytes raw.status raw.data) := by
  induction records generalizing s with
  | nil => simp
  | cons r rs ih => rw [List.foldl_cons, ih, Segmenter.bytesOf_seal_step]; simp

/-- One more record leaves no message without bytes. -/
theorem Segmenter.nonempty_step (s : Segmenter) (raw : RawRecord)
    (h : ∀ m ∈ s.seal, m.raw_status_and_data_bytes ≠ []) :
    ∀ m ∈ (s.step raw).seal, m.raw_status_and_data_bytes ≠ [] := by
  rcases Segmenter.step_cases s raw with ⟨kind, f, hs⟩ | ⟨k, hk, hs⟩
  · rw [hs]
    intro m hm
    simp only [Segmenter.seal, List.mem_append, List.mem_singleton] at hm
    rcases hm with hm | hm
    · exact h m hm
    · subst hm
      simp [Segmenter.openNew, Message.append]
  · rw [hs]
    rcases s with ⟨cur, ms⟩
    simp only at hk
    subst hk
    intro m hm
    simp only [Segmenter.seal, List.mem_append, List.mem_singleton] at hm h
    rcases hm with hm | hm
    · exact h m (Or.inl hm)
    · subst hm
      simp [Message.append]

/-- A run of records leaves no message without bytes. -/
theorem Segmenter.nonempty_foldl (records : List RawRecord) (s : Segmenter)
    (h : ∀ m ∈ s.seal, m.raw_status_and_data_bytes ≠ []) :
    ∀ m ∈ (records.foldl Segmenter.step s).seal, m.raw_status_and_data_bytes ≠ [] := by
  induction records generalizing s with
  | nil => simpa using h
  | cons r rs ih => rw [List.foldl_cons]; exact ih _ (Segmenter.nonempty_step s r h)

/-- C11: for every non-empty sequence of (status, data) records, the bytes of
the sealed messages, message after message, are the records of the input in
their order, none dropped, duplicated or moved; there is at least one message
and no message is without bytes. -/
theorem segmentation_coverage (records : List RawRecord) (hne : records ≠ []) :
    bytesOf (segment records) =
      records.map (fun raw => StatusAndData.ofBytes raw.status raw.data) ∧
    (bytesOf (segment records)).map StatusAndData.raw = records ∧
    segment records ≠ [] ∧
    (∀ m ∈ segment records, m.raw_status_and_data_bytes ≠ []) := by
  have hcov : bytesOf (segment records) =
      records.map (fun raw => StatusAndData.ofBytes raw.status raw.data) := by
    unfold segment
    rw [Segmenter.bytesOf_seal_foldl]
    simp [bytesOf, Segmenter.seal]
  refine ⟨hcov, ?_, ?_, ?_⟩
  · rw [hcov, List.map_map]
    have hid : (StatusAndData.raw ∘ fun raw : RawRecord =>
        StatusAndData.ofBytes raw.status raw.data) = id := by
      funext raw
      exact StatusAndData.raw_ofBytes raw
    rw [hid, List.map_id]
  · intro hnil
    rw [hnil] at hcov
    cases records with
    | nil => exact hne rfl
    | cons r rs => simp [bytesOf] at hcov
  · unfold segment
    exact Segmenter.nonempty_foldl records _ (by simp [Segmenter.seal])

/-- Witness for C11 at a TX byte, two comment bytes and a TX byte: three
messages, whose bytes are the four records in order. -/
theorem segmentation_coverage_witness :
    (segment [⟨0x00, 0x81⟩, ⟨0x03, 0x41⟩, ⟨0x02, 0x42⟩, ⟨0x00, 0x01⟩]).map
        Message.direction = [Direction.TX, Direction.COMMENT, Direction.TX] ∧
    (bytesOf (segment [⟨0x00, 0x81⟩, ⟨0x03, 0x41⟩, ⟨0x02, 0x42⟩, ⟨0x00, 0x01⟩])).map
        StatusAndData.raw = [⟨0x00, 0x81⟩, ⟨0x03, 0x41⟩, ⟨0x02, 0x42⟩, ⟨0x00, 0x01⟩] :=
  ⟨by decide,
    (segmentation_coverage [⟨0x00, 0x81⟩, ⟨0x03, 0x41⟩, ⟨0x02, 0x42⟩, ⟨0x00, 0x01⟩]
      (by decide)).2.1⟩

end ParseCommLog
